import Mathlib

/-!
# dcloud-tb-go-client: the generic resource / collection access layer

A shallow embedding of `tbclient/client.go`.  The HTTP exchange performed by the
resty library is an explicit, possibly stateful, server function; every request
handed to it is appended to a trace, so that statements about *which* requests an
operation issues are statements about that trace.
-/

namespace tbclient

/-! ## Constants of `client.go` -/

/-- HostURL, defaulted to the local service instance. -/
def HostURL : String := "http://localhost:8080"

/-- Name of the response header holding the version token. -/
def etagHeader : String := "ETag"

/-- Name of the conditional request header, spelled as in the source. -/
def ifMatch : String := "IF-MATCH"

/-! ## HTTP headers (Go `http.Header`) -/

/-- Go `http.Header`: a map from canonical header names to their values, kept as an
association list in which the first entry of a key is the map's entry. -/
abbrev Header := List (String × List String)

/-- Bytes allowed in a header field name (RFC 7230 token characters), as tested by
`validHeaderFieldByte` of `net/textproto`. -/
def validHeaderFieldByte (c : Char) : Bool :=
  c.isAlphanum || "!#$%&*+-.^_|~".toList.contains c || c.toNat == 39 || c.toNat == 96

/-- The second loop of `canonicalMIMEHeaderKey`: upper case for the first letter and
for a letter after a dash, lower case elsewhere. -/
def canonicalizeBytes : Bool → List Char → List Char
  | _, [] => []
  | upper, c :: cs =>
    let c1 := if upper && c.isLower then c.toUpper
              else if !upper && c.isUpper then c.toLower
              else c
    c1 :: canonicalizeBytes (c1 == '-') cs

/-- Go `textproto.CanonicalMIMEHeaderKey`: a key made of valid field bytes only is
canonicalized, any other key is returned unchanged. -/
def CanonicalMIMEHeaderKey (s : String) : String :=
  if s.toList.all validHeaderFieldByte then String.mk (canonicalizeBytes true s.toList) else s

/-- Go `Header.Get`: the first value of the canonicalized key, `""` when there is none. -/
def Header.Get (h : Header) (key : String) : String :=
  match h.lookup (CanonicalMIMEHeaderKey key) with
  | some (v :: _) => v
  | _ => ""

/-- Go `Header.Set`: the entry of the canonicalized key becomes the single value. -/
def Header.Set (h : Header) (key value : String) : Header :=
  (CanonicalMIMEHeaderKey key, [value]) ::
    h.filter (fun p => p.1 != CanonicalMIMEHeaderKey key)

/-! ## The resty client and request builders -/

/-- A resty client as the source configures it: the debug switch and the
client-level headers. -/
structure RestClient where
  Debug : Bool
  header : Header
deriving DecidableEq

/-- Resty `New`: a fresh client without headers. -/
def restyNew : RestClient := { Debug := false, header := [] }

/-- Resty `Client.SetDebug`. -/
def RestClient.SetDebug (c : RestClient) (d : Bool) : RestClient := { c with Debug := d }

/-- Resty `Client.SetHeader`: sets one client-level header. -/
def RestClient.SetHeader (c : RestClient) (key value : String) : RestClient :=
  { c with header := Header.Set c.header key value }

/-- Resty `Client.SetHeaders`: sets every header of the given map; the map is kept as
a list of pairs, set in list order. -/
def RestClient.SetHeaders (c : RestClient) (headers : List (String × String)) : RestClient :=
  headers.foldl (fun acc p => acc.SetHeader p.1 p.2) c

/-- A resty request.  `Method`, `URL` and the merged `header` are filled in when the
request is executed; `R` is the type of the JSON body. -/
structure Request (R : Type) where
  client : RestClient
  Method : String
  URL : String
  header : Header
  Body : Option R
  Token : String
deriving DecidableEq

/-- Resty `Client.R`: a new request bound to the client. -/
def RestClient.R {R : Type} (c : RestClient) : Request R :=
  { client := c, Method := "", URL := "", header := [], Body := none, Token := "" }

/-- Resty `Request.SetHeader`: sets one request-level header. -/
def Request.SetHeader {R : Type} (r : Request R) (key value : String) : Request R :=
  { r with header := Header.Set r.header key value }

/-- Resty `Request.SetBody`. -/
def Request.SetBody {R : Type} (r : Request R) (body : R) : Request R :=
  { r with Body := some body }

/-- Resty `Request.SetAuthToken`: the bearer token of the request. -/
def Request.SetAuthToken {R : Type} (r : Request R) (token : String) : Request R :=
  { r with Token := token }

/-- Resty `parseRequestHeader`: the headers that go on the wire are the client-level
headers, each overridden by the request-level header of the same name. -/
def parseRequestHeader (clientHeader requestHeader : Header) : Header :=
  requestHeader ++ clientHeader.filter (fun p => (requestHeader.lookup p.1).isNone)

/-- A resty response: status code, response headers and the received body. -/
structure Response (B : Type) where
  StatusCode : Int
  header : Header
  Body : B
deriving DecidableEq

/-- Resty `Response.IsSuccess`, `StatusCode() > 199 && StatusCode() < 300`. -/
def Response.IsSuccess {B : Type} (r : Response B) : Bool :=
  decide (r.StatusCode > 199) && decide (r.StatusCode < 300)

/-- Resty `Response.IsError`, `StatusCode() > 399`: a status of 400 or above. -/
def Response.IsError {B : Type} (r : Response B) : Bool :=
  decide (r.StatusCode > 399)

/-! ## The environment of an operation -/

/-- The list envelope `collection[RC]` decoded by `getAll`; it is declared outside
`client.go` and only its `Embedded` member is used there. -/
structure collection (RC : Type) where
  Embedded : RC

/-- Everything `client.go` takes from outside the file.

* `send` is one HTTP exchange as resty performs it: given the request and the state of
  the remote side it yields a transport error or a response, and the next state;
* `resultR` and `resultC` are resty `Response.Result` for the decode targets `new(R)`
  and `collection[RC]` selected with `SetResult`;
* `getData` is the method of the `embeddedData[R]` constraint;
* `generateError` is the error translator, declared outside `client.go`; it reads the
  response (status code and vendor error body, the target selected with `SetError`). -/
structure Env (σ R RC B E : Type) where
  send : Request R → σ → Except E (Response B) × σ
  resultR : Response B → R
  resultC : Response B → collection RC
  getData : RC → List R
  generateError : Response B → E

/-- The remote side together with the trace of the requests issued so far. -/
structure World (σ R : Type) where
  server : σ
  sent : List (Request R)
deriving DecidableEq

/-- The requests issued between world `w` and the later world `w1`. -/
def issued {σ R : Type} (w w1 : World σ R) : List (Request R) :=
  w1.sent.drop w.sent.length

section Exchange

variable {σ R RC B E : Type}

/-- The request as resty puts it on the wire at the start of `Request.Execute`: method
and URL are stamped and the request middleware `parseRequestHeader` merges the headers.
The bearer token stays in `Token`; the defaults resty adds on its own (`User-Agent`,
`Accept`, the `Authorization` line built from `Token`) are not written into `header`. -/
def Request.prepare (r : Request R) (method url : String) : Request R :=
  { r with Method := method, URL := url,
           header := parseRequestHeader r.client.header r.header }

/-- Resty `Request.Execute`: prepares the request, performs the exchange once and
records the request in the trace. -/
def Request.Execute (env : Env σ R RC B E) (r : Request R) (method url : String)
    (w : World σ R) : Except E (Response B) × World σ R :=
  let req := r.prepare method url
  ((env.send req w.server).1, { server := (env.send req w.server).2, sent := w.sent ++ [req] })

/-- Resty `Request.Get`. -/
def Request.Get (env : Env σ R RC B E) (r : Request R) (url : String) (w : World σ R) :
    Except E (Response B) × World σ R :=
  r.Execute env "GET" url w

/-- Resty `Request.Post`. -/
def Request.Post (env : Env σ R RC B E) (r : Request R) (url : String) (w : World σ R) :
    Except E (Response B) × World σ R :=
  r.Execute env "POST" url w

/-- Resty `Request.Put`. -/
def Request.Put (env : Env σ R RC B E) (r : Request R) (url : String) (w : World σ R) :
    Except E (Response B) × World σ R :=
  r.Execute env "PUT" url w

/-- Resty `Request.Delete`. -/
def Request.Delete (env : Env σ R RC B E) (r : Request R) (url : String) (w : World σ R) :
    Except E (Response B) × World σ R :=
  r.Execute env "DELETE" url w

end Exchange

/-! ## `client.go` -/

/-- The configuration record `Client`. -/
structure Client where
  HostURL : String
  Token : String
  Debug : Bool
  UserAgent : String
  DisableGzip : Bool
deriving DecidableEq

/-- Source function `NewClient(host, authToken *string)`: both arguments are pointers, `none` is the
nil pointer.  The token is dereferenced unconditionally, so a nil token faults and the
function yields no client. -/
def NewClient (host authToken : Option String) : Option Client :=
  match authToken with
  | none => none
  | some token =>
    let c : Client :=
      { HostURL := HostURL, Token := token, Debug := false, UserAgent := "",
        DisableGzip := false }
    match host with
    | some h => some { c with HostURL := h }
    | none => some c

/-- The struct `collectionService`; its type parameters occur in no field. -/
structure collectionService where
  client : Client
  resourcePath : String
  topologyUid : String
  requestHeaders : List (String × String)
deriving DecidableEq

/-- The struct `resourceService`, which embeds `collectionService`. -/
structure resourceService extends collectionService
deriving DecidableEq

/-- Source function `singleResourceUrl(hostUrl, resourcePath, uid)`. -/
def singleResourceUrl (hostUrl resourcePath uid : String) : String :=
  let singlePath := resourcePath ++ "/" ++ uid
  let url := hostUrl ++ singlePath
  url

/-- Source function `(c *Client) createRestClient()`. -/
def Client.createRestClient (c : Client) : RestClient :=
  let rest := restyNew
  let rest := rest.SetDebug c.Debug
  let rest := if c.UserAgent != "" then rest.SetHeader "User-Agent" c.UserAgent else rest
  let rest := if c.DisableGzip then rest.SetHeader "Accept-Encoding" "" else rest
  rest

/-- Source function `(s *collectionService) createRestClient()`. -/
def collectionService.createRestClient (s : collectionService) : RestClient :=
  let rest := s.client.createRestClient
  let rest := rest.SetHeaders s.requestHeaders
  rest

/-- Source variable `emptyHeaders`, the empty header map. -/
def emptyHeaders : List (String × String) := []

/-- Source function `getTopologyPath(topologyUid)`. -/
def getTopologyPath (topologyUid : String) : String :=
  if topologyUid != "" then "/topologies/" ++ topologyUid else ""

section Operations

variable {σ R RC B E : Type}

/-- Source function `executeGet(rest, authToken, url, result)`; the decode target
`result` is represented by `Env.resultR` and `Env.resultC`. -/
def executeGet (env : Env σ R RC B E) (rest : RestClient) (authToken url : String)
    (w : World σ R) : Except E (Response B) × World σ R :=
  match ((rest.R : Request R).SetAuthToken authToken).Get env url w with
  | (.error err, w1) => (.error err, w1)
  | (.ok resp, w1) =>
    if resp.IsError then (.error (env.generateError resp), w1)
    else (.ok resp, w1)

/-- Source function `executePut(rest, authToken, url, body, result, etag)`. -/
def executePut (env : Env σ R RC B E) (rest : RestClient) (authToken url : String)
    (body : R) (etag : String) (w : World σ R) : Except E (Response B) × World σ R :=
  match ((((rest.R : Request R).SetHeader ifMatch etag).SetBody body).SetAuthToken
      authToken).Put env url w with
  | (.error err, w1) => (.error err, w1)
  | (.ok resp, w1) =>
    if resp.IsError then (.error (env.generateError resp), w1)
    else (.ok resp, w1)

/-- Source function `(s *collectionService) getAll()`. -/
def collectionService.getAll (env : Env σ R RC B E) (s : collectionService)
    (w : World σ R) : Except E (List R) × World σ R :=
  let topologyPath := getTopologyPath s.topologyUid
  let rest := s.createRestClient
  let url := s.client.HostURL ++ topologyPath ++ s.resourcePath
  match executeGet env rest s.client.Token url w with
  | (.error err, w1) => (.error err, w1)
  | (.ok resp, w1) => (.ok (env.getData (env.resultC resp).Embedded), w1)

/-- Source function `(s *resourceService) getOne(uid)`. -/
def resourceService.getOne (env : Env σ R RC B E) (s : resourceService) (uid : String)
    (w : World σ R) : Except E R × World σ R :=
  let rest := s.createRestClient
  let url := singleResourceUrl s.client.HostURL s.resourcePath uid
  match executeGet env rest s.client.Token url w with
  | (.error err, w1) => (.error err, w1)
  | (.ok resp, w1) => (.ok (env.resultR resp), w1)

/-- Source function `(s *resourceService) create(resource)`. -/
def resourceService.create (env : Env σ R RC B E) (s : resourceService) (resource : R)
    (w : World σ R) : Except E R × World σ R :=
  let rest := s.createRestClient
  let rest := rest.SetHeader "Content-Type" "application/json"
  let url := s.client.HostURL ++ s.resourcePath
  match (((rest.R : Request R).SetBody resource).SetAuthToken s.client.Token).Post env url w with
  | (.error err, w1) => (.error err, w1)
  | (.ok resp, w1) =>
    if resp.IsError then (.error (env.generateError resp), w1)
    else (.ok (env.resultR resp), w1)

/-- Source function `(s *resourceService) update(uid, resource)`. -/
def resourceService.update (env : Env σ R RC B E) (s : resourceService) (uid : String)
    (resource : R) (w : World σ R) : Except E R × World σ R :=
  let rest := s.createRestClient
  let rest := rest.SetHeader "Content-Type" "application/json"
  let url := singleResourceUrl s.client.HostURL s.resourcePath uid
  match executeGet env rest s.client.Token url w with
  | (.error err, w1) => (.error err, w1)
  | (.ok current, w1) =>
    let etag := current.header.Get etagHeader
    match executePut env rest s.client.Token url resource etag w1 with
    | (.error err, w2) => (.error err, w2)
    | (.ok updated, w2) => (.ok (env.resultR updated), w2)

/-- Source function `(s *resourceService) delete(uid)`; the returned `error` is `none` for nil. -/
def resourceService.delete (env : Env σ R RC B E) (s : resourceService) (uid : String)
    (w : World σ R) : Option E × World σ R :=
  let rest := s.createRestClient
  let url := singleResourceUrl s.client.HostURL s.resourcePath uid
  match ((rest.R : Request R).SetAuthToken s.client.Token).Delete env url w with
  | (.error err, w1) => (some err, w1)
  | (.ok resp, w1) =>
    if resp.IsError && resp.StatusCode != 404 then (some (env.generateError resp), w1)
    else (none, w1)

end Operations

/-! ## Concrete remote sides used to run the operations -/

/-- Errors of the concrete runs: a transport failure, or the structured error of the
error translator. -/
inductive ClientError where
  | transport (reason : String)
  | api (status : Int) (payload : String)
deriving DecidableEq

/-- Modelled from the spec: the Error Translator `generateError`, which is declared
outside the given sources.  Its output is a single structured error carrying the status
code and the vendor payload verbatim. -/
def generateError (resp : Response String) : ClientError :=
  ClientError.api resp.StatusCode resp.Body

/-- A remote side that plays a script: each request is answered with the next entry of
the script, and the connection is refused once the script is used up.  Bodies are
strings, a resource decodes to its body and a collection to the lines of its body. -/
def scripted :
    Env (List (Except ClientError (Response String))) String (List String) String ClientError :=
  { send := fun _ st =>
      match st with
      | [] => (.error (ClientError.transport "connection refused"), [])
      | a :: rest => (a, rest)
    resultR := fun resp => resp.Body
    resultC := fun resp => { Embedded := [resp.Body] }
    getData := fun rc => rc
    generateError := generateError }

/-- A world in which nothing has been sent yet and the remote side follows `script`. -/
def start (script : List (Except ClientError (Response String))) :
    World (List (Except ClientError (Response String))) String :=
  { server := script, sent := [] }

/-- A response with the given status code, headers and body. -/
def answer (status : Int) (header : Header) (body : String) :
    Except ClientError (Response String) :=
  .ok { StatusCode := status, header := header, Body := body }

/-- A client for host `host` with token `"tok"`. -/
def clientAt (host : String) : Client :=
  { HostURL := host, Token := "tok", Debug := false, UserAgent := "", DisableGzip := false }

/-- A resource service for `path` under scoping context `topologyUid`. -/
def serviceAt (host path topologyUid : String) : resourceService :=
  { client := clientAt host, resourcePath := path, topologyUid := topologyUid,
    requestHeaders := [] }

/-! ## Auxiliary facts -/

section Aux

variable {σ R RC B E : Type}

theorem issued_append (w : World σ R) (st : σ) (l : List (Request R)) :
    issued w { server := st, sent := w.sent ++ l } = l := by
  simp [issued]

theorem Execute_snd (env : Env σ R RC B E) (r : Request R) (method url : String)
    (w : World σ R) :
    (r.Execute env method url w).2 =
      { server := (env.send (r.prepare method url) w.server).2,
        sent := w.sent ++ [r.prepare method url] } := rfl

theorem executeGet_snd (env : Env σ R RC B E) (rest : RestClient) (tok url : String)
    (w : World σ R) :
    (executeGet env rest tok url w).2 =
      (((rest.R : Request R).SetAuthToken tok).Get env url w).2 := by
  unfold executeGet
  split
  · next h => rw [h]
  · next resp w1 h => rw [h]; split <;> rfl

theorem executePut_snd (env : Env σ R RC B E) (rest : RestClient) (tok url : String)
    (body : R) (etag : String) (w : World σ R) :
    (executePut env rest tok url body etag w).2 =
      (((((rest.R : Request R).SetHeader ifMatch etag).SetBody body).SetAuthToken tok).Put
        env url w).2 := by
  unfold executePut
  split
  · next h => rw [h]
  · next resp w1 h => rw [h]; split <;> rfl

theorem issued_of_sent (w w1 : World σ R) (l : List (Request R))
    (h : w1.sent = w.sent ++ l) : issued w w1 = l := by
  simp [issued, h]

theorem executeGet_sent (env : Env σ R RC B E) (rest : RestClient) (tok url : String)
    (w : World σ R) :
    (executeGet env rest tok url w).2.sent =
      w.sent ++ [((rest.R : Request R).SetAuthToken tok).prepare "GET" url] := by
  rw [executeGet_snd, Request.Get, Execute_snd]

theorem executePut_sent (env : Env σ R RC B E) (rest : RestClient) (tok url : String)
    (body : R) (etag : String) (w : World σ R) :
    (executePut env rest tok url body etag w).2.sent =
      w.sent ++ [((((rest.R : Request R).SetHeader ifMatch etag).SetBody body).SetAuthToken
        tok).prepare "PUT" url] := by
  rw [executePut_snd, Request.Put, Execute_snd]

theorem getOne_snd (env : Env σ R RC B E) (s : resourceService) (uid : String)
    (w : World σ R) :
    (s.getOne env uid w).2 = (executeGet env s.createRestClient s.client.Token
      (singleResourceUrl s.client.HostURL s.resourcePath uid) w).2 := by
  dsimp only [resourceService.getOne]
  split
  · next h => rw [h]
  · next h => rw [h]

theorem delete_snd (env : Env σ R RC B E) (s : resourceService) (uid : String)
    (w : World σ R) :
    (s.delete env uid w).2 =
      (((s.createRestClient.R : Request R).SetAuthToken s.client.Token).Delete env
        (singleResourceUrl s.client.HostURL s.resourcePath uid) w).2 := by
  dsimp only [resourceService.delete]
  split
  · next h => rw [h]
  · next h => rw [h]; split <;> rfl

theorem create_snd (env : Env σ R RC B E) (s : resourceService) (resource : R)
    (w : World σ R) :
    (s.create env resource w).2 =
      (((((s.createRestClient.SetHeader "Content-Type" "application/json").R :
        Request R).SetBody resource).SetAuthToken s.client.Token).Post env
        (s.client.HostURL ++ s.resourcePath) w).2 := by
  dsimp only [resourceService.create]
  split
  · next h => rw [h]
  · next h => rw [h]; split <;> rfl

theorem update_of_get_error (env : Env σ R RC B E) (s : resourceService) (uid : String)
    (resource : R) (w w1 : World σ R) (err : E)
    (h : executeGet env (s.createRestClient.SetHeader "Content-Type" "application/json")
      s.client.Token (singleResourceUrl s.client.HostURL s.resourcePath uid) w =
      (.error err, w1)) :
    s.update env uid resource w = (.error err, w1) := by
  dsimp only [resourceService.update]
  rw [h]

theorem update_of_get_ok (env : Env σ R RC B E) (s : resourceService) (uid : String)
    (resource : R) (w w1 : World σ R) (current : Response B)
    (h : executeGet env (s.createRestClient.SetHeader "Content-Type" "application/json")
      s.client.Token (singleResourceUrl s.client.HostURL s.resourcePath uid) w =
      (.ok current, w1)) :
    s.update env uid resource w =
      match executePut env (s.createRestClient.SetHeader "Content-Type" "application/json")
          s.client.Token (singleResourceUrl s.client.HostURL s.resourcePath uid) resource
          (current.header.Get etagHeader) w1 with
      | (.error err, w2) => (.error err, w2)
      | (.ok updated, w2) => (.ok (env.resultR updated), w2) := by
  dsimp only [resourceService.update]
  rw [h]

theorem update_snd_of_get_ok (env : Env σ R RC B E) (s : resourceService) (uid : String)
    (resource : R) (w w1 : World σ R) (current : Response B)
    (h : executeGet env (s.createRestClient.SetHeader "Content-Type" "application/json")
      s.client.Token (singleResourceUrl s.client.HostURL s.resourcePath uid) w =
      (.ok current, w1)) :
    (s.update env uid resource w).2 =
      (executePut env (s.createRestClient.SetHeader "Content-Type" "application/json")
          s.client.Token (singleResourceUrl s.client.HostURL s.resourcePath uid) resource
          (current.header.Get etagHeader) w1).2 := by
  rw [update_of_get_ok env s uid resource w w1 current h]
  split
  · next h2 => rw [h2]
  · next h2 => rw [h2]

theorem ifMatch_lookup (clientHeader : Header) (etag : String) :
    (parseRequestHeader clientHeader (Header.Set [] ifMatch etag)).lookup "If-Match" =
      some [etag] := by
  have hk : CanonicalMIMEHeaderKey ifMatch = "If-Match" := by decide
  simp [parseRequestHeader, Header.Set, hk, List.lookup]

theorem ifMatch_get (clientHeader : Header) (etag : String) :
    Header.Get (parseRequestHeader clientHeader (Header.Set [] ifMatch etag)) "If-Match" =
      etag := by
  have hk : CanonicalMIMEHeaderKey "If-Match" = "If-Match" := by decide
  unfold Header.Get
  rw [hk, ifMatch_lookup]

theorem Execute_issued (env : Env σ R RC B E) (r : Request R) (method url : String)
    (w w1 : World σ R) (res : Except E (Response B))
    (h : r.Execute env method url w = (res, w1)) :
    issued w w1 = [r.prepare method url] := by
  have h2 := congrArg Prod.snd h
  rw [Execute_snd] at h2
  dsimp only at h2
  rw [← h2, issued_append]

theorem executeGet_of_error (env : Env σ R RC B E) (rest : RestClient) (tok url : String)
    (w w1 : World σ R) (err : E)
    (h : ((rest.R : Request R).SetAuthToken tok).Get env url w = (.error err, w1)) :
    executeGet env rest tok url w = (.error err, w1) := by
  unfold executeGet
  rw [h]

theorem executeGet_of_status (env : Env σ R RC B E) (rest : RestClient) (tok url : String)
    (w w1 : World σ R) (resp : Response B)
    (h : ((rest.R : Request R).SetAuthToken tok).Get env url w = (.ok resp, w1))
    (hs : 400 ≤ resp.StatusCode) :
    executeGet env rest tok url w = (.error (env.generateError resp), w1) := by
  unfold executeGet
  rw [h]
  have : resp.IsError = true := by
    simp only [Response.IsError, decide_eq_true_eq]
    omega
  simp [this]

theorem executePut_of_error (env : Env σ R RC B E) (rest : RestClient) (tok url : String)
    (body : R) (etag : String) (w w1 : World σ R) (err : E)
    (h : ((((rest.R : Request R).SetHeader ifMatch etag).SetBody body).SetAuthToken tok).Put
      env url w = (.error err, w1)) :
    executePut env rest tok url body etag w = (.error err, w1) := by
  unfold executePut
  rw [h]

theorem executePut_of_status (env : Env σ R RC B E) (rest : RestClient) (tok url : String)
    (body : R) (etag : String) (w w1 : World σ R) (resp : Response B)
    (h : ((((rest.R : Request R).SetHeader ifMatch etag).SetBody body).SetAuthToken tok).Put
      env url w = (.ok resp, w1))
    (hs : 400 ≤ resp.StatusCode) :
    executePut env rest tok url body etag w = (.error (env.generateError resp), w1) := by
  unfold executePut
  rw [h]
  have : resp.IsError = true := by
    simp only [Response.IsError, decide_eq_true_eq]
    omega
  simp [this]

theorem Execute_sent_eq (env : Env σ R RC B E) (r : Request R) (method url : String)
    (w w1 : World σ R) (res : Except E (Response B))
    (h : r.Execute env method url w = (res, w1)) :
    w1.sent = w.sent ++ [r.prepare method url] := by
  have h2 := congrArg Prod.snd h
  rw [Execute_snd] at h2
  dsimp only at h2
  rw [← h2]

theorem executeGet_sent_eq (env : Env σ R RC B E) (rest : RestClient) (tok url : String)
    (w w1 : World σ R) (res : Except E (Response B))
    (h : executeGet env rest tok url w = (res, w1)) :
    w1.sent = w.sent ++ [((rest.R : Request R).SetAuthToken tok).prepare "GET" url] := by
  have h1 := executeGet_sent env rest tok url w
  rw [h] at h1
  exact h1

end Aux

/-! ## The claims -/

section Claims

variable {σ R RC B E : Type}

/-- C10: for every optional host and every auth token, `NewClient` yields a client whose
`Token` is the given token, whose `HostURL` is the given host when one is supplied and
the default `"http://localhost:8080"` when it is nil, and whose `Debug`, `UserAgent` and
`DisableGzip` are false, empty and false. -/
theorem NewClient_fields (host : Option String) (token : String) :
    NewClient host (some token) =
      some { HostURL := host.getD "http://localhost:8080", Token := token, Debug := false,
             UserAgent := "", DisableGzip := false } := by
  cases host <;> rfl

/-- C6: `getAll` requests exactly one URL, `h ++ getTopologyPath t ++ p`, where
`getTopologyPath t` is `"/topologies/" ++ t` for a non-empty `t` and `""` for the empty
one; for `h = "http://h"`, `t = ""`, `p = "/topologies"` that URL is
`"http://h/topologies"`. -/
theorem getAll_url (env : Env σ R RC B E) (s : collectionService) (w : World σ R) :
    (issued w (s.getAll env w).2).map Request.URL =
        [s.client.HostURL ++ getTopologyPath s.topologyUid ++ s.resourcePath] ∧
    getTopologyPath s.topologyUid =
        (if s.topologyUid = "" then "" else "/topologies/" ++ s.topologyUid) ∧
    (issued w (collectionService.getAll env
        { client := { s.client with HostURL := "http://h" }, resourcePath := "/topologies",
          topologyUid := "", requestHeaders := s.requestHeaders } w).2).map Request.URL =
        ["http://h/topologies"] := by
  have key : ∀ t : collectionService, (issued w (t.getAll env w).2).map Request.URL =
      [t.client.HostURL ++ getTopologyPath t.topologyUid ++ t.resourcePath] := by
    intro t
    have h : (t.getAll env w).2 = (executeGet env t.createRestClient t.client.Token
        (t.client.HostURL ++ getTopologyPath t.topologyUid ++ t.resourcePath) w).2 := by
      dsimp only [collectionService.getAll]
      split
      · next h => rw [h]
      · next h => rw [h]
    rw [h, issued_of_sent w _ _ (executeGet_sent env _ _ _ w)]
    rfl
  refine ⟨key s, ?_, ?_⟩
  · unfold getTopologyPath
    by_cases h : s.topologyUid = "" <;> simp [h]
  · rw [key]
    rfl

/-- C5, as stated, fails: with host `"http://h"`, scoping context `"T1"`, collection path
`"/nodes"` and uid `"n1"`, `getOne` requests `"http://h/nodes/n1"`, which is not the
scoped URL `"http://h/topologies/T1/nodes/n1"`. -/
theorem getOne_url_not_scoped :
    (issued (start [answer 200 [] "node"])
        ((serviceAt "http://h" "/nodes" "T1").getOne scripted "n1"
          (start [answer 200 [] "node"])).2).map Request.URL = ["http://h/nodes/n1"] ∧
    "http://h/nodes/n1" ≠ "http://h" ++ getTopologyPath "T1" ++ "/nodes" ++ "/" ++ "n1" := by
  decide

/-- C5, amended: for every resource service with host `h`, collection path `p` and any
scoping context, and every uid `u`, the URL requested by `getOne`, by `delete` and by
each request of `update` is `h ++ p ++ "/" ++ u`; no scoping prefix is applied. -/
theorem single_resource_url (env : Env σ R RC B E) (s : resourceService) (uid : String)
    (resource : R) (w : World σ R) :
    (issued w (s.getOne env uid w).2).map Request.URL =
        [s.client.HostURL ++ s.resourcePath ++ "/" ++ uid] ∧
    (issued w (s.delete env uid w).2).map Request.URL =
        [s.client.HostURL ++ s.resourcePath ++ "/" ++ uid] ∧
    ((issued w (s.update env uid resource w).2).map Request.URL =
        [s.client.HostURL ++ s.resourcePath ++ "/" ++ uid] ∨
     (issued w (s.update env uid resource w).2).map Request.URL =
        [s.client.HostURL ++ s.resourcePath ++ "/" ++ uid,
         s.client.HostURL ++ s.resourcePath ++ "/" ++ uid]) := by
  have hurl : singleResourceUrl s.client.HostURL s.resourcePath uid =
      s.client.HostURL ++ s.resourcePath ++ "/" ++ uid := by
    simp [singleResourceUrl, String.append_assoc]
  refine ⟨?_, ?_, ?_⟩
  · rw [getOne_snd, issued_of_sent w _ _ (executeGet_sent env _ _ _ w), ← hurl]
    rfl
  · rw [delete_snd, Request.Delete, Execute_snd, issued_append, ← hurl]
    rfl
  · rw [← hurl]
    rcases hg : executeGet env (s.createRestClient.SetHeader "Content-Type" "application/json")
      s.client.Token (singleResourceUrl s.client.HostURL s.resourcePath uid) w with ⟨err | cur, w1⟩
    · left
      rw [update_of_get_error env s uid resource w w1 err hg]
      have h1 := executeGet_sent env
        (s.createRestClient.SetHeader "Content-Type" "application/json")
        s.client.Token (singleResourceUrl s.client.HostURL s.resourcePath uid) w
      rw [hg] at h1
      rw [issued_of_sent w _ _ h1]
      rfl
    · right
      rw [update_snd_of_get_ok env s uid resource w w1 cur hg]
      have h1 := executeGet_sent env
        (s.createRestClient.SetHeader "Content-Type" "application/json")
        s.client.Token (singleResourceUrl s.client.HostURL s.resourcePath uid) w
      rw [hg] at h1
      have h2 := executePut_sent env
        (s.createRestClient.SetHeader "Content-Type" "application/json")
        s.client.Token (singleResourceUrl s.client.HostURL s.resourcePath uid) resource
        (cur.header.Get etagHeader) w1
      dsimp only at h1
      rw [h1, List.append_assoc] at h2
      rw [issued_of_sent w _ _ h2]
      rfl

/-- C1: whenever the initial GET of `update` succeeds, `update` issues exactly that GET
followed by one PUT; the PUT goes to the URL of the GET, which is the single-resource
URL, its body is the caller's resource, and its `If-Match` header has exactly one value:
the first value `v` stored under `Etag` in the headers of the GET response (and the empty
string when that response has no `Etag` value). -/
theorem update_put_carries_etag (env : Env σ R RC B E) (s : resourceService) (uid : String)
    (resource : R) (w w1 : World σ R) (current : Response B)
    (hget : executeGet env (s.createRestClient.SetHeader "Content-Type" "application/json")
      s.client.Token (singleResourceUrl s.client.HostURL s.resourcePath uid) w =
      (.ok current, w1)) :
    ∃ getReq putReq : Request R,
      issued w (s.update env uid resource w).2 = [getReq, putReq] ∧
      issued w w1 = [getReq] ∧
      getReq.Method = "GET" ∧ putReq.Method = "PUT" ∧
      getReq.URL = s.client.HostURL ++ (s.resourcePath ++ "/" ++ uid) ∧
      putReq.URL = getReq.URL ∧
      putReq.Body = some resource ∧
      (∀ (v : String) (vs : List String),
        List.lookup "Etag" current.header = some (v :: vs) →
        List.lookup "If-Match" putReq.header = some [v]) ∧
      (List.lookup "Etag" current.header = none ∨
          List.lookup "Etag" current.header = some [] →
        List.lookup "If-Match" putReq.header = some [""]) := by
  have h1 := executeGet_sent env
    (s.createRestClient.SetHeader "Content-Type" "application/json")
    s.client.Token (singleResourceUrl s.client.HostURL s.resourcePath uid) w
  rw [hget] at h1
  dsimp only at h1
  have h2 := executePut_sent env
    (s.createRestClient.SetHeader "Content-Type" "application/json")
    s.client.Token (singleResourceUrl s.client.HostURL s.resourcePath uid) resource
    (current.header.Get etagHeader) w1
  rw [h1, List.append_assoc] at h2
  have hk : CanonicalMIMEHeaderKey etagHeader = "Etag" := by decide
  refine ⟨(((s.createRestClient.SetHeader "Content-Type" "application/json").R :
      Request R).SetAuthToken s.client.Token).prepare "GET"
        (singleResourceUrl s.client.HostURL s.resourcePath uid),
    (((((s.createRestClient.SetHeader "Content-Type" "application/json").R :
      Request R).SetHeader ifMatch (current.header.Get etagHeader)).SetBody
        resource).SetAuthToken s.client.Token).prepare "PUT"
        (singleResourceUrl s.client.HostURL s.resourcePath uid),
    ?_, issued_of_sent w _ _ h1, rfl, rfl, rfl, rfl, rfl, ?_, ?_⟩
  · rw [update_snd_of_get_ok env s uid resource w w1 current hget, issued_of_sent w _ _ h2]
    rfl
  · intro v vs hv
    have hval : Header.Get current.header etagHeader = v := by
      unfold Header.Get
      rw [hk, hv]
    have := ifMatch_lookup (s.createRestClient.SetHeader "Content-Type"
      "application/json").header (Header.Get current.header etagHeader)
    rw [hval] at this ⊢
    exact this
  · intro hv
    have hval : Header.Get current.header etagHeader = "" := by
      unfold Header.Get
      rcases hv with hv | hv <;> rw [hk, hv]
    have := ifMatch_lookup (s.createRestClient.SetHeader "Content-Type"
      "application/json").header (Header.Get current.header etagHeader)
    rw [hval] at this ⊢
    exact this

/-- C1 at a concrete run: the GET of `"http://h/topologies/t1"` is answered 200 with the
header `Etag: v1`, and the PUT that follows goes to the same URL with body `"mine"` and
carries `If-Match: v1`. -/
theorem update_put_carries_etag_witness :
    ∃ getReq putReq : Request String,
      issued (start [answer 200 [("Etag", ["v1"])] "old", answer 200 [("Etag", ["v2"])] "new"])
        ((serviceAt "http://h" "/topologies" "").update scripted "t1" "mine"
          (start [answer 200 [("Etag", ["v1"])] "old",
                  answer 200 [("Etag", ["v2"])] "new"])).2 = [getReq, putReq] ∧
      getReq.Method = "GET" ∧ putReq.Method = "PUT" ∧
      getReq.URL = "http://h/topologies/t1" ∧
      putReq.URL = "http://h/topologies/t1" ∧
      putReq.Body = some "mine" ∧
      List.lookup "If-Match" putReq.header = some ["v1"] := by
  obtain ⟨getReq, putReq, hIssued, _, hGet, hPut, hUrl, hSame, hBody, hEtag, _⟩ :=
    update_put_carries_etag scripted (serviceAt "http://h" "/topologies" "") "t1" "mine"
      (start [answer 200 [("Etag", ["v1"])] "old", answer 200 [("Etag", ["v2"])] "new"])
      { server := [answer 200 [("Etag", ["v2"])] "new"],
        sent := [(((serviceAt "http://h" "/topologies" "").createRestClient.SetHeader
          "Content-Type" "application/json").R.SetAuthToken "tok").prepare "GET"
            "http://h/topologies/t1"] }
      { StatusCode := 200, header := [("Etag", ["v1"])], Body := "old" }
      rfl
  have hUrl1 : getReq.URL = "http://h/topologies/t1" := by rw [hUrl]; decide
  exact ⟨getReq, putReq, hIssued, hGet, hPut, hUrl1, by rw [hSame, hUrl1], hBody,
    hEtag "v1" [] rfl⟩

/-- C2: if the initial GET of `update` fails, by a transport error or by a response that
`executeGet` turns into an error, then `update` returns no resource and exactly that
error, and the only request it issues is that GET: no PUT is sent. -/
theorem update_get_failure (env : Env σ R RC B E) (s : resourceService) (uid : String)
    (resource : R) (w w1 : World σ R) (err : E)
    (hget : executeGet env (s.createRestClient.SetHeader "Content-Type" "application/json")
      s.client.Token (singleResourceUrl s.client.HostURL s.resourcePath uid) w =
      (.error err, w1)) :
    s.update env uid resource w = (.error err, w1) ∧
    ∃ getReq : Request R,
      issued w (s.update env uid resource w).2 = [getReq] ∧ getReq.Method = "GET" ∧
      ((issued w (s.update env uid resource w).2).filter
        (fun req => req.Method == "PUT")) = [] := by
  have h1 := executeGet_sent env
    (s.createRestClient.SetHeader "Content-Type" "application/json")
    s.client.Token (singleResourceUrl s.client.HostURL s.resourcePath uid) w
  rw [hget] at h1
  dsimp only at h1
  rw [update_of_get_error env s uid resource w w1 err hget]
  refine ⟨rfl, _, issued_of_sent w _ _ h1, rfl, ?_⟩
  rw [issued_of_sent w _ _ h1]
  rfl

/-- C2 at two concrete runs: a refused connection, and a GET answered 404. -/
theorem update_get_failure_witness :
    ((serviceAt "http://h" "/topologies" "").update scripted "t1" "mine" (start []) =
        (.error (ClientError.transport "connection refused"),
          { server := [],
            sent := [(((serviceAt "http://h" "/topologies" "").createRestClient.SetHeader
              "Content-Type" "application/json").R.SetAuthToken "tok").prepare "GET"
                "http://h/topologies/t1"] })) ∧
    ((serviceAt "http://h" "/topologies" "").update scripted "t1" "mine"
        (start [answer 404 [] "gone", answer 200 [] "new"]) =
        (.error (ClientError.api 404 "gone"),
          { server := [answer 200 [] "new"],
            sent := [(((serviceAt "http://h" "/topologies" "").createRestClient.SetHeader
              "Content-Type" "application/json").R.SetAuthToken "tok").prepare "GET"
                "http://h/topologies/t1"] })) :=
  ⟨(update_get_failure scripted (serviceAt "http://h" "/topologies" "") "t1" "mine"
      (start []) _ _ rfl).1,
   (update_get_failure scripted (serviceAt "http://h" "/topologies" "") "t1" "mine"
      (start [answer 404 [] "gone", answer 200 [] "new"]) _ _ rfl).1⟩

/-- C3: when the DELETE response has status 404, `delete` returns no error, exactly as
for a 2xx response; hence a delete answered 2xx followed by a delete of the same uid
answered 404 both return no error. -/
theorem delete_not_found_is_success (env : Env σ R RC B E) (s : resourceService)
    (uid : String) :
    (∀ (w w1 : World σ R) (resp : Response B),
      ((s.createRestClient.R : Request R).SetAuthToken s.client.Token).Delete env
        (singleResourceUrl s.client.HostURL s.resourcePath uid) w = (.ok resp, w1) →
      (resp.StatusCode = 404 ∨ resp.IsSuccess = true) →
      s.delete env uid w = (none, w1)) ∧
    (∀ (w w1 w2 : World σ R) (first second : Response B),
      ((s.createRestClient.R : Request R).SetAuthToken s.client.Token).Delete env
        (singleResourceUrl s.client.HostURL s.resourcePath uid) w = (.ok first, w1) →
      first.IsSuccess = true →
      ((s.createRestClient.R : Request R).SetAuthToken s.client.Token).Delete env
        (singleResourceUrl s.client.HostURL s.resourcePath uid) w1 = (.ok second, w2) →
      second.StatusCode = 404 →
      s.delete env uid w = (none, w1) ∧ s.delete env uid w1 = (none, w2)) := by
  have key : ∀ (w w1 : World σ R) (resp : Response B),
      ((s.createRestClient.R : Request R).SetAuthToken s.client.Token).Delete env
        (singleResourceUrl s.client.HostURL s.resourcePath uid) w = (.ok resp, w1) →
      (resp.StatusCode = 404 ∨ resp.IsSuccess = true) →
      s.delete env uid w = (none, w1) := by
    intro w w1 resp h hs
    dsimp only [resourceService.delete]
    rw [h]
    have hc : (resp.IsError && resp.StatusCode != 404) = false := by
      rcases hs with h404 | h2xx
      · simp [h404]
      · simp only [Response.IsSuccess, Bool.and_eq_true, decide_eq_true_eq] at h2xx
        have : resp.IsError = false := by
          simp only [Response.IsError, decide_eq_false_iff_not]
          omega
        simp [this]
    simp [hc]
  refine ⟨key, ?_⟩
  intro w w1 w2 first second h1 hs1 h2 hs2
  exact ⟨key w w1 first h1 (Or.inr hs1), key w1 w2 second h2 (Or.inl hs2)⟩

/-- C3 at a concrete run: the first delete of `"t1"` is answered 204, the second 404, and
both return no error. -/
theorem delete_not_found_is_success_witness :
    (serviceAt "http://h" "/topologies" "").delete scripted "t1"
        (start [answer 204 [] "", answer 404 [] "gone"]) =
      (none, { server := [answer 404 [] "gone"],
               sent := [((serviceAt "http://h" "/topologies" "").createRestClient.R.SetAuthToken
                 "tok").prepare "DELETE" "http://h/topologies/t1"] }) ∧
    (serviceAt "http://h" "/topologies" "").delete scripted "t1"
        { server := [answer 404 [] "gone"],
          sent := [((serviceAt "http://h" "/topologies" "").createRestClient.R.SetAuthToken
            "tok").prepare "DELETE" "http://h/topologies/t1"] } =
      (none, { server := [],
               sent := [((serviceAt "http://h" "/topologies" "").createRestClient.R.SetAuthToken
                   "tok").prepare "DELETE" "http://h/topologies/t1",
                 ((serviceAt "http://h" "/topologies" "").createRestClient.R.SetAuthToken
                   "tok").prepare "DELETE" "http://h/topologies/t1"] }) :=
  (delete_not_found_is_success scripted (serviceAt "http://h" "/topologies" "") "t1").2
    (start [answer 204 [] "", answer 404 [] "gone"]) _ _
    { StatusCode := 204, header := [], Body := "" }
    { StatusCode := 404, header := [], Body := "gone" }
    rfl rfl rfl rfl

/-- C7: `create` issues exactly one request, a POST to `host ++ collectionPath` (no
resource id and no scoping prefix, whatever the scoping context of the service) whose
body is the resource; when the response is a success (2xx), `create` returns the
resource decoded from that response and no error. -/
theorem create_posts_to_collection (env : Env σ R RC B E) (s : resourceService)
    (resource : R) (w : World σ R) :
    (∃ req : Request R,
      issued w (s.create env resource w).2 = [req] ∧ req.Method = "POST" ∧
      req.URL = s.client.HostURL ++ s.resourcePath ∧ req.Body = some resource) ∧
    (∀ (resp : Response B) (w1 : World σ R),
      ((((s.createRestClient.SetHeader "Content-Type" "application/json").R :
        Request R).SetBody resource).SetAuthToken s.client.Token).Post env
        (s.client.HostURL ++ s.resourcePath) w = (.ok resp, w1) →
      resp.IsSuccess = true →
      s.create env resource w = (.ok (env.resultR resp), w1)) := by
  constructor
  · refine ⟨((((s.createRestClient.SetHeader "Content-Type" "application/json").R :
        Request R).SetBody resource).SetAuthToken s.client.Token).prepare "POST"
        (s.client.HostURL ++ s.resourcePath), ?_, rfl, rfl, rfl⟩
    rw [create_snd, Request.Post, Execute_snd, issued_append]
  · intro resp w1 h hs
    dsimp only [resourceService.create]
    rw [h]
    simp only [Response.IsSuccess, Bool.and_eq_true, decide_eq_true_eq] at hs
    have : resp.IsError = false := by
      simp only [Response.IsError, decide_eq_false_iff_not]
      omega
    simp [this]

/-- C7 at a concrete run: a service scoped to `"T1"` posts `"mine"` to `"http://h/nodes"`
and returns the server's `"canonical"`, not the argument. -/
theorem create_posts_to_collection_witness :
    (serviceAt "http://h" "/nodes" "T1").create scripted "mine"
        (start [answer 201 [] "canonical"]) =
      (.ok "canonical",
       { server := [],
         sent := [((((serviceAt "http://h" "/nodes" "T1").createRestClient.SetHeader
           "Content-Type" "application/json").R.SetBody "mine").SetAuthToken "tok").prepare
             "POST" "http://h/nodes"] }) :=
  (create_posts_to_collection scripted (serviceAt "http://h" "/nodes" "T1") "mine"
    (start [answer 201 [] "canonical"])).2
    { StatusCode := 201, header := [], Body := "canonical" } _ rfl rfl

/-- C9: for each of `getAll`, `getOne`, `create`, `update` (in its GET and in its PUT
phase) and `delete`, when the exchange yields a transport error instead of a response,
the operation returns exactly that error, with no result, and stops in the world reached
by that exchange: one request has been issued (two for a failure of the PUT of `update`,
the GET and the PUT), and none after the failure. -/
theorem transport_error_unchanged (env : Env σ R RC B E) (s : resourceService)
    (uid : String) (resource : R) (w w0 w1 : World σ R) (current : Response B) (err : E) :
    (((s.createRestClient.R : Request R).SetAuthToken s.client.Token).Get env
        (s.client.HostURL ++ getTopologyPath s.topologyUid ++ s.resourcePath) w =
        (.error err, w1) →
      s.tocollectionService.getAll env w = (.error err, w1) ∧ (issued w w1).length = 1) ∧
    (((s.createRestClient.R : Request R).SetAuthToken s.client.Token).Get env
        (singleResourceUrl s.client.HostURL s.resourcePath uid) w = (.error err, w1) →
      s.getOne env uid w = (.error err, w1) ∧ (issued w w1).length = 1) ∧
    (((((s.createRestClient.SetHeader "Content-Type" "application/json").R :
        Request R).SetBody resource).SetAuthToken s.client.Token).Post env
        (s.client.HostURL ++ s.resourcePath) w = (.error err, w1) →
      s.create env resource w = (.error err, w1) ∧ (issued w w1).length = 1) ∧
    ((((s.createRestClient.SetHeader "Content-Type" "application/json").R :
        Request R).SetAuthToken s.client.Token).Get env
        (singleResourceUrl s.client.HostURL s.resourcePath uid) w = (.error err, w1) →
      s.update env uid resource w = (.error err, w1) ∧ (issued w w1).length = 1) ∧
    (executeGet env (s.createRestClient.SetHeader "Content-Type" "application/json")
        s.client.Token (singleResourceUrl s.client.HostURL s.resourcePath uid) w =
        (.ok current, w0) →
      (((((s.createRestClient.SetHeader "Content-Type" "application/json").R :
        Request R).SetHeader ifMatch (current.header.Get etagHeader)).SetBody
        resource).SetAuthToken s.client.Token).Put env
        (singleResourceUrl s.client.HostURL s.resourcePath uid) w0 = (.error err, w1) →
      s.update env uid resource w = (.error err, w1) ∧ (issued w w1).length = 2) ∧
    (((s.createRestClient.R : Request R).SetAuthToken s.client.Token).Delete env
        (singleResourceUrl s.client.HostURL s.resourcePath uid) w = (.error err, w1) →
      s.delete env uid w = (some err, w1) ∧ (issued w w1).length = 1) := by
  refine ⟨?_, ?_, ?_, ?_, ?_, ?_⟩
  · intro h
    refine ⟨?_, by rw [Execute_issued env _ _ _ w w1 _ h]; rfl⟩
    dsimp only [collectionService.getAll]
    rw [executeGet_of_error env _ _ _ w w1 err h]
  · intro h
    refine ⟨?_, by rw [Execute_issued env _ _ _ w w1 _ h]; rfl⟩
    dsimp only [resourceService.getOne]
    rw [executeGet_of_error env _ _ _ w w1 err h]
  · intro h
    refine ⟨?_, by rw [Execute_issued env _ _ _ w w1 _ h]; rfl⟩
    dsimp only [resourceService.create]
    rw [h]
  · intro h
    refine ⟨?_, by rw [Execute_issued env _ _ _ w w1 _ h]; rfl⟩
    exact update_of_get_error env s uid resource w w1 err
      (executeGet_of_error env _ _ _ w w1 err h)
  · intro hg hp
    constructor
    · rw [update_of_get_ok env s uid resource w w0 current hg,
        executePut_of_error env _ _ _ _ _ w0 w1 err hp]
    · have h0 := executeGet_sent_eq env _ _ _ w w0 _ hg
      have h1 := Execute_sent_eq env _ _ _ w0 w1 _ hp
      rw [h0, List.append_assoc] at h1
      rw [issued_of_sent w w1 _ h1]
      rfl
  · intro h
    refine ⟨?_, by rw [Execute_issued env _ _ _ w w1 _ h]; rfl⟩
    dsimp only [resourceService.delete]
    rw [h]

/-- C9 at concrete runs: with a refused connection `getOne` and `delete` return the
transport error itself after one request, and an `update` whose GET is answered 200 and
whose PUT is refused returns the transport error after two requests. -/
theorem transport_error_unchanged_witness :
    ((serviceAt "http://h" "/topologies" "").getOne scripted "t1" (start []) =
        (.error (ClientError.transport "connection refused"),
         { server := [],
           sent := [((serviceAt "http://h" "/topologies" "").createRestClient.R.SetAuthToken
             "tok").prepare "GET" "http://h/topologies/t1"] })) ∧
    ((serviceAt "http://h" "/topologies" "").update scripted "t1" "mine"
        (start [answer 200 [("Etag", ["v1"])] "old"]) =
        (.error (ClientError.transport "connection refused"),
         { server := [],
           sent := [(((serviceAt "http://h" "/topologies" "").createRestClient.SetHeader
               "Content-Type" "application/json").R.SetAuthToken "tok").prepare "GET"
                 "http://h/topologies/t1",
             (((((serviceAt "http://h" "/topologies" "").createRestClient.SetHeader
               "Content-Type" "application/json").R.SetHeader "IF-MATCH" "v1").SetBody
                 "mine").SetAuthToken "tok").prepare "PUT" "http://h/topologies/t1"] })) ∧
    ((serviceAt "http://h" "/topologies" "").delete scripted "t1" (start []) =
        (some (ClientError.transport "connection refused"),
         { server := [],
           sent := [((serviceAt "http://h" "/topologies" "").createRestClient.R.SetAuthToken
             "tok").prepare "DELETE" "http://h/topologies/t1"] })) :=
  ⟨((transport_error_unchanged scripted (serviceAt "http://h" "/topologies" "") "t1" "mine"
      (start []) (start []) _ { StatusCode := 200, header := [], Body := "" }
      (ClientError.transport "connection refused")).2.1 rfl).1,
   ((transport_error_unchanged scripted (serviceAt "http://h" "/topologies" "") "t1" "mine"
      (start [answer 200 [("Etag", ["v1"])] "old"])
      { server := [],
        sent := [(((serviceAt "http://h" "/topologies" "").createRestClient.SetHeader
          "Content-Type" "application/json").R.SetAuthToken "tok").prepare "GET"
            "http://h/topologies/t1"] }
      _ { StatusCode := 200, header := [("Etag", ["v1"])], Body := "old" }
      (ClientError.transport "connection refused")).2.2.2.2.1 rfl rfl).1,
   ((transport_error_unchanged scripted (serviceAt "http://h" "/topologies" "") "t1" "mine"
      (start []) (start []) _ { StatusCode := 200, header := [], Body := "" }
      (ClientError.transport "connection refused")).2.2.2.2.2 rfl).1⟩

/-- C4, as stated, fails: a `getOne` answered with status 304, which is not in 200..299,
returns a resource and no error, because resty reports an error only from status 400. -/
theorem getOne_not_modified_is_no_error :
    (serviceAt "http://h" "/topologies" "").getOne scripted "t1"
        (start [answer 304 [] "unchanged"]) =
      (.ok "unchanged",
       { server := [],
         sent := [((serviceAt "http://h" "/topologies" "").createRestClient.R.SetAuthToken
           "tok").prepare "GET" "http://h/topologies/t1"] }) ∧
    Response.IsSuccess { StatusCode := 304, header := [], Body := "unchanged" } = false ∧
    Response.IsError { StatusCode := 304, header := [], Body := "unchanged" } = false :=
  ⟨rfl, rfl, rfl⟩

/-- C4, amended: for each of `getAll`, `getOne`, `create` and `update` (in its GET and
in its PUT phase), and for every response whose status is 400 or above, the operation
returns no resource together with the error that `generateError` produces for that
response; `delete` does the same for every status of 400 or above other than 404.  In
particular a `getOne` answered 404 fails with that translated error. -/
theorem error_status_translated (env : Env σ R RC B E) (s : resourceService)
    (uid : String) (resource : R) (w w0 w1 : World σ R) (current resp : Response B)
    (hs : 400 ≤ resp.StatusCode) :
    (((s.createRestClient.R : Request R).SetAuthToken s.client.Token).Get env
        (s.client.HostURL ++ getTopologyPath s.topologyUid ++ s.resourcePath) w =
        (.ok resp, w1) →
      s.tocollectionService.getAll env w = (.error (env.generateError resp), w1)) ∧
    (((s.createRestClient.R : Request R).SetAuthToken s.client.Token).Get env
        (singleResourceUrl s.client.HostURL s.resourcePath uid) w = (.ok resp, w1) →
      s.getOne env uid w = (.error (env.generateError resp), w1)) ∧
    (((((s.createRestClient.SetHeader "Content-Type" "application/json").R :
        Request R).SetBody resource).SetAuthToken s.client.Token).Post env
        (s.client.HostURL ++ s.resourcePath) w = (.ok resp, w1) →
      s.create env resource w = (.error (env.generateError resp), w1)) ∧
    ((((s.createRestClient.SetHeader "Content-Type" "application/json").R :
        Request R).SetAuthToken s.client.Token).Get env
        (singleResourceUrl s.client.HostURL s.resourcePath uid) w = (.ok resp, w1) →
      s.update env uid resource w = (.error (env.generateError resp), w1)) ∧
    (executeGet env (s.createRestClient.SetHeader "Content-Type" "application/json")
        s.client.Token (singleResourceUrl s.client.HostURL s.resourcePath uid) w =
        (.ok current, w0) →
      (((((s.createRestClient.SetHeader "Content-Type" "application/json").R :
        Request R).SetHeader ifMatch (current.header.Get etagHeader)).SetBody
        resource).SetAuthToken s.client.Token).Put env
        (singleResourceUrl s.client.HostURL s.resourcePath uid) w0 = (.ok resp, w1) →
      s.update env uid resource w = (.error (env.generateError resp), w1)) ∧
    (((s.createRestClient.R : Request R).SetAuthToken s.client.Token).Delete env
        (singleResourceUrl s.client.HostURL s.resourcePath uid) w = (.ok resp, w1) →
      resp.StatusCode ≠ 404 →
      s.delete env uid w = (some (env.generateError resp), w1)) ∧
    (∀ notFound : Response B, notFound.StatusCode = 404 →
      ((s.createRestClient.R : Request R).SetAuthToken s.client.Token).Get env
        (singleResourceUrl s.client.HostURL s.resourcePath uid) w = (.ok notFound, w1) →
      s.getOne env uid w = (.error (env.generateError notFound), w1)) := by
  have hE : resp.IsError = true := by
    simp only [Response.IsError, decide_eq_true_eq]
    omega
  refine ⟨?_, ?_, ?_, ?_, ?_, ?_, ?_⟩
  · intro h
    dsimp only [collectionService.getAll]
    rw [executeGet_of_status env _ _ _ w w1 resp h hs]
  · intro h
    dsimp only [resourceService.getOne]
    rw [executeGet_of_status env _ _ _ w w1 resp h hs]
  · intro h
    dsimp only [resourceService.create]
    rw [h]
    simp [hE]
  · intro h
    exact update_of_get_error env s uid resource w w1 _
      (executeGet_of_status env _ _ _ w w1 resp h hs)
  · intro hg hp
    rw [update_of_get_ok env s uid resource w w0 current hg,
      executePut_of_status env _ _ _ _ _ w0 w1 resp hp hs]
  · intro h hne
    dsimp only [resourceService.delete]
    rw [h]
    simp [hE, hne]
  · intro notFound h404 h
    dsimp only [resourceService.getOne]
    rw [executeGet_of_status env _ _ _ w w1 notFound h (by rw [h404]; decide)]

/-- C4, amended, at concrete runs: a `getOne` answered 404 and a `delete` answered 500
both return the translated error of the response. -/
theorem error_status_translated_witness :
    ((serviceAt "http://h" "/topologies" "").getOne scripted "t1"
        (start [answer 404 [] "no such topology"]) =
      (.error (ClientError.api 404 "no such topology"),
       { server := [],
         sent := [((serviceAt "http://h" "/topologies" "").createRestClient.R.SetAuthToken
           "tok").prepare "GET" "http://h/topologies/t1"] })) ∧
    ((serviceAt "http://h" "/topologies" "").delete scripted "t1"
        (start [answer 500 [] "boom"]) =
      (some (ClientError.api 500 "boom"),
       { server := [],
         sent := [((serviceAt "http://h" "/topologies" "").createRestClient.R.SetAuthToken
           "tok").prepare "DELETE" "http://h/topologies/t1"] })) :=
  ⟨(error_status_translated scripted (serviceAt "http://h" "/topologies" "") "t1" "mine"
      (start [answer 404 [] "no such topology"]) (start []) _
      { StatusCode := 200, header := [], Body := "" }
      { StatusCode := 404, header := [], Body := "no such topology" } (by decide)).2.1 rfl,
   (error_status_translated scripted (serviceAt "http://h" "/topologies" "") "t1" "mine"
      (start [answer 500 [] "boom"]) (start []) _
      { StatusCode := 200, header := [], Body := "" }
      { StatusCode := 500, header := [], Body := "boom" } (by decide)).2.2.2.2.2.1 rfl
      (by decide)⟩

/-- C8, as stated, fails: an `update` whose initial GET is rejected with status 412 and an
`update` whose GET succeeds and whose conditional PUT is rejected with the same status
and body return the same result to the caller. -/
theorem update_phases_same_result :
    (executeGet scripted
        ((serviceAt "http://h" "/topologies" "").createRestClient.SetHeader "Content-Type"
          "application/json") "tok" "http://h/topologies/t1"
        (start [answer 412 [] "precondition failed"])).1 =
      .error (ClientError.api 412 "precondition failed") ∧
    (executeGet scripted
        ((serviceAt "http://h" "/topologies" "").createRestClient.SetHeader "Content-Type"
          "application/json") "tok" "http://h/topologies/t1"
        (start [answer 200 [("Etag", ["v1"])] "old",
                answer 412 [] "precondition failed"])).1 =
      .ok { StatusCode := 200, header := [("Etag", ["v1"])], Body := "old" } ∧
    (executePut scripted
        ((serviceAt "http://h" "/topologies" "").createRestClient.SetHeader "Content-Type"
          "application/json") "tok" "http://h/topologies/t1" "mine" "v1"
        { server := [answer 412 [] "precondition failed"],
          sent := [(((serviceAt "http://h" "/topologies" "").createRestClient.SetHeader
            "Content-Type" "application/json").R.SetAuthToken "tok").prepare "GET"
              "http://h/topologies/t1"] }).1 =
      .error (ClientError.api 412 "precondition failed") ∧
    ((serviceAt "http://h" "/topologies" "").update scripted "t1" "mine"
        (start [answer 412 [] "precondition failed"])).1 =
      ((serviceAt "http://h" "/topologies" "").update scripted "t1" "mine"
        (start [answer 200 [("Etag", ["v1"])] "old",
                answer 412 [] "precondition failed"])).1 :=
  ⟨rfl, rfl, rfl, rfl⟩

/-- C8, amended: `update` returns the error of the failing phase unchanged and adds no
mark of the phase.  For one execution whose initial GET fails with `getErr` and one whose
GET succeeds and whose PUT fails with `putErr`, the first returns no resource and
`getErr`, the second no resource and `putErr`, and the two results are the same exactly
when the two errors are equal. -/
theorem update_failure_result (env env2 : Env σ R RC B E) (s s2 : resourceService)
    (uid uid2 : String) (resource resource2 : R) (w w1 v v0 v1 : World σ R)
    (current : Response B) (getErr putErr : E)
    (hget : executeGet env (s.createRestClient.SetHeader "Content-Type" "application/json")
      s.client.Token (singleResourceUrl s.client.HostURL s.resourcePath uid) w =
      (.error getErr, w1))
    (hget2 : executeGet env2 (s2.createRestClient.SetHeader "Content-Type" "application/json")
      s2.client.Token (singleResourceUrl s2.client.HostURL s2.resourcePath uid2) v =
      (.ok current, v0))
    (hput2 : executePut env2 (s2.createRestClient.SetHeader "Content-Type" "application/json")
      s2.client.Token (singleResourceUrl s2.client.HostURL s2.resourcePath uid2) resource2
      (current.header.Get etagHeader) v0 = (.error putErr, v1)) :
    (s.update env uid resource w).1 = .error getErr ∧
    (s2.update env2 uid2 resource2 v).1 = .error putErr ∧
    ((s.update env uid resource w).1 = (s2.update env2 uid2 resource2 v).1 ↔
      getErr = putErr) := by
  have h1 : (s.update env uid resource w).1 = .error getErr := by
    rw [update_of_get_error env s uid resource w w1 getErr hget]
  have h2 : (s2.update env2 uid2 resource2 v).1 = .error putErr := by
    rw [update_of_get_ok env2 s2 uid2 resource2 v v0 current hget2, hput2]
  refine ⟨h1, h2, ?_⟩
  rw [h1, h2]
  constructor
  · intro h
    injection h
  · intro h
    rw [h]

/-- C8, amended, at concrete runs: a GET rejected with 404 and a PUT rejected with 412
return their own errors, and here the two results differ only because the errors do. -/
theorem update_failure_result_witness :
    ((serviceAt "http://h" "/topologies" "").update scripted "t1" "mine"
        (start [answer 404 [] "gone"])).1 = .error (ClientError.api 404 "gone") ∧
    ((serviceAt "http://h" "/topologies" "").update scripted "t1" "mine"
        (start [answer 200 [("Etag", ["v1"])] "old", answer 412 [] "stale"])).1 =
      .error (ClientError.api 412 "stale") ∧
    (((serviceAt "http://h" "/topologies" "").update scripted "t1" "mine"
        (start [answer 404 [] "gone"])).1 =
      ((serviceAt "http://h" "/topologies" "").update scripted "t1" "mine"
        (start [answer 200 [("Etag", ["v1"])] "old", answer 412 [] "stale"])).1 ↔
      ClientError.api 404 "gone" = ClientError.api 412 "stale") :=
  update_failure_result scripted scripted (serviceAt "http://h" "/topologies" "")
    (serviceAt "http://h" "/topologies" "") "t1" "t1" "mine" "mine"
    (start [answer 404 [] "gone"]) _
    (start [answer 200 [("Etag", ["v1"])] "old", answer 412 [] "stale"]) _ _
    { StatusCode := 200, header := [("Etag", ["v1"])], Body := "old" }
    (ClientError.api 404 "gone") (ClientError.api 412 "stale") rfl rfl rfl

end Claims

end tbclient
